import Mathlib

/-!
Shallow embedding of the FIB-Tomography volume/slicing engine
(src/FIB_Tomo.py, src/GUI.py, src/VTK3DReconstruction.py).

A volume is a dense 3D array of unsigned 8-bit samples with shape
(depth, height, width), indexed [z][y][x].  We model it as explicit
dimensions plus an index function into the sample values (Nat, with the
values understood to lie in [0, 255]).
-/

/-- A 3D array with shape `(depth, height, width)`, indexed `data z y x`.
Mirrors the NumPy arrays `self.volume` / `self.image_stack` of the source. -/
structure Volume where
  depth : Nat
  height : Nat
  width : Nat
  data : Nat → Nat → Nat → Nat

/-- `np.clip(x, lo, hi)` on integers: `min (max x lo) hi`. -/
def clipInt (x lo hi : Int) : Int := min (max x lo) hi

/-- NumPy integer indexing into an axis of size `dim`: an index in
`[0, dim)` resolves to itself, an index in `[-dim, 0)` wraps to
`dim + i`, and anything else raises `IndexError` (modelled as `none`). -/
def npIndex (dim : Nat) (i : Int) : Option Nat :=
  if 0 ≤ i ∧ i < (dim : Int) then some i.toNat
  else if -(dim : Int) ≤ i ∧ i < 0 then some ((dim : Int) + i).toNat
  else none

/-- Axial slice `volume[z, :, :]`, shape `(height, width)`. -/
def axialSlice (v : Volume) (z : Nat) : List (List Nat) :=
  (List.range v.height).map (fun y => (List.range v.width).map (fun x => v.data z y x))

/-- Coronal slice `volume[:, y, :]`, shape `(depth, width)`. -/
def coronalSlice (v : Volume) (y : Nat) : List (List Nat) :=
  (List.range v.depth).map (fun z => (List.range v.width).map (fun x => v.data z y x))

/-- Sagittal slice `volume[:, :, x]`, shape `(depth, height)`. -/
def sagittalSlice (v : Volume) (x : Nat) : List (List Nat) :=
  (List.range v.depth).map (fun z => (List.range v.height).map (fun y => v.data z y x))

/-- The strict axial extraction `volume[z_index, :, :]` with NumPy index
semantics (used directly at call sites such as `animate_slices`). -/
def axialStrict (v : Volume) (i : Int) : Option (List (List Nat)) :=
  (npIndex v.depth i).map (fun z => axialSlice v z)

/-- The strict coronal extraction `volume[:, y_index, :]` with NumPy index
semantics (`GUI.create_orthogonal_slice_actors`, `animate_slices`). -/
def coronalStrict (v : Volume) (i : Int) : Option (List (List Nat)) :=
  (npIndex v.height i).map (fun y => coronalSlice v y)

/-- The strict sagittal extraction `volume[:, :, x_index]` with NumPy index
semantics (`GUI.create_orthogonal_slice_actors`, `animate_slices`). -/
def sagittalStrict (v : Volume) (i : Int) : Option (List (List Nat)) :=
  (npIndex v.width i).map (fun x => sagittalSlice v x)

/-- One value of `np.linspace(0, 255, w, dtype=np.uint8)`: the float
`255 * x / (w - 1)` truncated by the cast to `uint8`.  For the magnitudes
involved (values below 256, exact at every integer multiple) the float64
computation agrees with exact rational truncation, which is Nat division. -/
def linspaceU8 (w x : Nat) : Nat :=
  if w ≤ 1 then 0 else 255 * x / (w - 1)

/-- The synthetic volume of `FIBTomo.load_image(None)`: every row `[z, y, :]`
is `np.linspace(0, 255, width, dtype=np.uint8)` over a zero-initialised
buffer of shape `dims`. -/
def synthetic (depth height width : Nat) : Volume :=
  ⟨depth, height, width, fun _ _ x => linspaceU8 width x⟩

/-- The `FIBTomo` object state: configured `dims = (depth, height, width)`,
the optionally loaded volume, the `loaded` flag and the three navigation
offsets (plain integers, as stored by `update_slice`). -/
structure FIBTomo where
  dims : Nat × Nat × Nat
  volume : Option Volume
  loaded : Bool
  x_offset : Int
  y_offset : Int
  z_offset : Int

/-- `FIBTomo.__init__(dims)`: no volume, offsets centered from `dims`. -/
def FIBTomo.init (dims : Nat × Nat × Nat) : FIBTomo :=
  ⟨dims, none, false, (dims.2.2 / 2 : Nat), (dims.2.1 / 2 : Nat), (dims.1 / 2 : Nat)⟩

/-- `FIBTomo.update_slice(x, y, z)`: assigns the three offsets. -/
def FIBTomo.update_slice (t : FIBTomo) (x y z : Int) : FIBTomo :=
  { t with x_offset := x, y_offset := y, z_offset := z }

/-- `FIBTomo.load_image(filename)`: `filename = none` generates the
synthetic volume from `t.dims`; `some stack` stands for the decoded TIFF
contents (file decoding is an external collaborator).  Sets `loaded` and
resets the offsets to `self.dims[...] // 2`. -/
def FIBTomo.load_image (t : FIBTomo) (filename : Option Volume) : FIBTomo :=
  let vol := match filename with
    | none => synthetic t.dims.1 t.dims.2.1 t.dims.2.2
    | some stack => stack
  { t with volume := some vol, loaded := true,
           x_offset := (t.dims.2.2 / 2 : Nat),
           y_offset := (t.dims.2.1 / 2 : Nat),
           z_offset := (t.dims.1 / 2 : Nat) }

/-- `FIBTomo.get_vtk_image()`: raises (`none`) unless loaded; otherwise
clips `z_offset` to `[0, shape[0] - 1]` with `np.clip` and extracts the
axial slice `volume[z_index, :, :]`.  The method assigns no attributes, so
it is a pure function of the state. -/
def FIBTomo.get_vtk_image (t : FIBTomo) : Option (List (List Nat)) :=
  match t.volume, t.loaded with
  | some v, true => axialStrict v (clipInt t.z_offset 0 ((v.depth : Int) - 1))
  | _, _ => none

/-! ### Oriented buffer for the renderer (`create_vtk_volume`) -/

/-- `np.transpose(stack, (2, 1, 0))`: axes reversed, so the result has
shape `(width, height, depth)` and `transposed[x][y][z] = stack[z][y][x]`.
The `Volume` field names record positions, so here `depth` holds the
first (x) extent of the transposed array. -/
def transpose210 (v : Volume) : Volume :=
  ⟨v.width, v.height, v.depth, fun x y z => v.data z y x⟩

/-- `a.ravel(order="F")` of a 3D array with shape `(d0, d1, d2)`: the
element at linear position `ℓ` is `a[ℓ % d0][(ℓ / d0) % d1][ℓ / (d0*d1)]`
(first axis fastest). -/
def ravelF (a : Volume) : List Nat :=
  (List.range (a.depth * a.height * a.width)).map
    (fun l => a.data (l % a.depth) (l / a.depth % a.height) (l / (a.depth * a.height)))

/-- The data handed to the renderer: the `SetDimensions(width, height, depth)`
triple and the linear scalar buffer. -/
structure VTKData where
  dims : Nat × Nat × Nat
  buffer : List Nat

/-- The body of `FIBTomo.create_vtk_volume` (lines 88-102): read
`(depth, height, width)` from the stack's shape, set dimensions
`(width, height, depth)`, transpose by `(2, 1, 0)` and ravel in
Fortran order. -/
def create_vtk_volume (image_stack : Volume) : VTKData :=
  ⟨(image_stack.width, image_stack.height, image_stack.depth),
   ravelF (transpose210 image_stack)⟩

/-- `FIBTomo.create_vtk_volume(image_stack)` as a state transformer:
resolves the optional argument against the loaded volume (raising, i.e.
`none` result, when nothing is loaded) and builds the oriented data.  The
method assigns no attributes, so the state component is returned as
received. -/
def FIBTomo.create_vtk_volume_st (t : FIBTomo) (image_stack : Option Volume) :
    FIBTomo × Option VTKData :=
  match image_stack with
  | some s => (t, some (create_vtk_volume s))
  | none =>
    match t.volume, t.loaded with
    | some v, true => (t, some (create_vtk_volume v))
    | _, _ => (t, none)

/-- The `VTK3DReconstruction` object state (only the stored image stack
matters to the data model; the renderer objects are external). -/
structure VTK3DReconstruction where
  image_stack : Volume

/-- `VTK3DReconstruction.create_vtk_volume()`: reads the shape, then
executes `self.image_stack = np.transpose(self.image_stack, (2, 1, 0))` —
the stored stack is replaced by its transpose — and ravels the new stack
in Fortran order. -/
def VTK3DReconstruction.create_vtk_volume (s : VTK3DReconstruction) :
    VTK3DReconstruction × VTKData :=
  let t := transpose210 s.image_stack
  (⟨t⟩,
   ⟨(s.image_stack.width, s.image_stack.height, s.image_stack.depth), ravelF t⟩)

/-! ### Frame compositor (`animate_slices`) -/

/-- `max(depth, height, width)`. -/
def maxDim (v : Volume) : Nat := max (max v.depth v.height) v.width

/-- Right padding of one row to length `c`:
`row ++ zeros (c - len row)` (`np.pad`, second axis). -/
def padRow (row : List Nat) (c : Nat) : List Nat :=
  row ++ List.replicate (c - row.length) 0

/-- `np.pad(m, ((0, r - rows), (0, c - cols)), mode='constant')`:
pad every row on the right to length `c`, then append `r - rows` zero
rows (bottom/right padding only). -/
def pad2d (m : List (List Nat)) (r c : Nat) : List (List Nat) :=
  m.map (fun row => padRow row c) ++ List.replicate (r - m.length) (List.replicate c 0)

/-- `np.hstack` of two 2D arrays: rows concatenated pairwise. -/
def hstack2 (a b : List (List Nat)) : List (List Nat) :=
  List.zipWith (fun r s => r ++ s) a b

/-- `np.hstack([a, b, c])`. -/
def hstack3 (a b c : List (List Nat)) : List (List Nat) :=
  hstack2 (hstack2 a b) c

/-- Maximum of a list of naturals (`0` on empty). -/
def listMax (l : List Nat) : Nat := l.foldr max 0

/-- `np.max` over a 2D array (the combined frame is never empty where
this is used). -/
def frameMax (m : List (List Nat)) : Nat := listMax (m.map listMax)

/-- One sample of `(combined / np.max(combined) * 255).astype(np.uint8)`.
There is no guard on the divisor: when the frame maximum is `0` the float
division produces NaN and the `uint8` cast of NaN is undefined, modelled
as `none`.  For a positive maximum the float64 result truncates to the
integer part of `255 * v / m` (up to float rounding, which no theorem
below depends on). -/
def normPixel (m v : Nat) : Option Nat :=
  if m = 0 then none else some (255 * v / m)

/-- A composited video frame: rows of pixels, each pixel the 3-channel
`cv2.cvtColor(..., COLOR_GRAY2BGR)` replication of the normalized sample. -/
abbrev Frame := List (List (List (Option Nat)))

/-- The frame built from the three extracted slices: pad each to a
`max_dim` square, concatenate horizontally, normalize by the frame
maximum and convert to 3 channels. -/
def composeFrame (v : Volume) (xy yz xz : List (List Nat)) : Frame :=
  let md := maxDim v
  let combined := hstack3 (pad2d xy md md) (pad2d yz md md) (pad2d xz md md)
  let m := frameMax combined
  combined.map (fun row => row.map (fun p => [normPixel m p, normPixel m p, normPixel m p]))

/-- One iteration of the `animate_slices` loop at depth index `i`:
extract `volume[i, :, :]`, `volume[:, i, :]`, `volume[:, :, i]` (strict
NumPy indexing: `none` propagates the `IndexError`) and compose the
combined frame from them. -/
def frameAt (v : Volume) (i : Nat) : Option Frame :=
  match axialStrict v (i : Int), coronalStrict v (i : Int), sagittalStrict v (i : Int) with
  | some xy, some yz, some xz => some (composeFrame v xy yz xz)
  | _, _, _ => none

/-- The frames produced by iterating `frameAt` over a list of indices;
an `IndexError` in any iteration aborts the whole loop. -/
def frameSeq (v : Volume) : List Nat → Option (List Frame)
  | [] => some []
  | i :: is =>
    match frameAt v i, frameSeq v is with
    | some f, some fs => some (f :: fs)
    | _, _ => none

/-- `FIBTomo.animate_slices` (and its `VTK3DReconstruction` twin), as the
sequence of frames written to the video: the loop `for i in range(depth)`. -/
def animate_slices (v : Volume) : Option (List Frame) :=
  frameSeq v (List.range v.depth)

/-! ### Scale bar (`GUI.update_scale_bar`) -/

/-- Dehomogenization of a projected display point: divide the components
by the homogeneous coordinate when `w ≠ 0`, otherwise take them as they
are (`update_scale_bar` lines 296-304). -/
def dehomog (p : ℚ × ℚ × ℚ × ℚ) : ℚ × ℚ × ℚ :=
  if p.2.2.2 ≠ 0 then (p.1 / p.2.2.2, p.2.1 / p.2.2.2, p.2.2.1 / p.2.2.2)
  else (p.1, p.2.1, p.2.2.1)

/-- Squared Euclidean distance `dx*dx + dy*dy + dz*dz` between two world
points (the source takes `math.sqrt` of this before formatting; we carry
the square, which is exact in `ℚ`). -/
def dist2 (p q : ℚ × ℚ × ℚ) : ℚ :=
  (q.1 - p.1) * (q.1 - p.1) + (q.2.1 - p.2.1) * (q.2.1 - p.2.1) +
    (q.2.2 - p.2.2) * (q.2.2 - p.2.2)

/-- Result of the scale-bar computation: the two dehomogenized world
endpoints and the squared world distance. -/
structure ScaleBarResult where
  p1 : ℚ × ℚ × ℚ
  p2 : ℚ × ℚ × ℚ
  distSq : ℚ

/-- `GUI.update_scale_bar`: display endpoints `(x2 - L, margin)` and
`(x2, margin)` with `x2 = 0.5 * width - margin`, both projected through
the renderer's display-to-world transform and dehomogenized, then the
Euclidean distance between them.  `proj x y` is the external
`DisplayToWorld` applied to `(x, y, 0)`. -/
def update_scale_bar (width margin pixel_length : ℚ)
    (proj : ℚ → ℚ → ℚ × ℚ × ℚ × ℚ) : ScaleBarResult :=
  let x2 := 0.5 * width - margin
  let x1 := x2 - pixel_length
  let w1 := dehomog (proj x1 margin)
  let w2 := dehomog (proj x2 margin)
  ⟨w1, w2, dist2 w1 w2⟩

/-- The label `f"{world_distance:.2f} mm"` for an exactly representable
distance: two decimal places (the half-cent tie cannot arise at the
inputs where this is used) followed by the unit. -/
def formatMM (d : ℚ) : String :=
  let n : Int := Int.floor (d * 100 + 1 / 2)
  toString (n / 100) ++ "." ++ (if n % 100 < 10 then "0" else "") ++ toString (n % 100) ++ " mm"

/-! ### Spec-side definition for the synthetic-gradient claim -/

/-- Modelled from the spec's words (not from the source): the claimed
synthetic sample `round(255 * x / (width - 1))`, with `round` rounding to
the nearest integer.  Compared against `linspaceU8`, which the source
computes by truncation. -/
def specRoundGradient (w x : Nat) : Int :=
  round ((255 * x : ℚ) / ((w : ℚ) - 1))

/-! ### Concrete fixtures used by witnesses and counterexamples -/

/-- An all-zero volume of the given shape. -/
def zeroVolume (d h w : Nat) : Volume := ⟨d, h, w, fun _ _ _ => 0⟩

/-- A 2×2×2 volume whose voxel at `[z][y][x]` is its own C-order rank. -/
def gradVolume222 : Volume := ⟨2, 2, 2, fun z y x => 4 * z + 2 * y + x⟩

/-- A `FIBTomo` configured with `dims = (100, 100, 100)` into which an
external 10×10×10 stack has been loaded. -/
def mismatchTomo : FIBTomo :=
  (FIBTomo.init (100, 100, 100)).load_image (some (zeroVolume 10 10 10))

/-- A loaded 2×2×2 `FIBTomo` whose `z_offset` was then set to `-5`. -/
def tomoNeg : FIBTomo :=
  ((FIBTomo.init (2, 2, 2)).load_image (some (zeroVolume 2 2 2))).update_slice 0 0 (-5)

/-! ## Helper lemmas -/

lemma npIndex_of_lt (d i : Nat) (h : i < d) : npIndex d (i : Int) = some i := by
  unfold npIndex
  rw [if_pos ⟨by omega, by exact_mod_cast h⟩]
  simp

lemma npIndex_of_nonneg_lt (d : Nat) (i : Int) (h0 : 0 ≤ i) (h1 : i < (d : Int)) :
    npIndex d i = some i.toNat := by
  unfold npIndex
  rw [if_pos ⟨h0, h1⟩]

lemma npIndex_none (d : Nat) (i : Int) (h : (d : Int) ≤ i ∨ i < -(d : Int)) :
    npIndex d i = none := by
  unfold npIndex
  rw [if_neg (by omega), if_neg (by omega)]

lemma npIndex_wrap (d : Nat) (i : Int) (h1 : -(d : Int) ≤ i) (h2 : i < 0) :
    npIndex d i = some ((d : Int) + i).toNat := by
  unfold npIndex
  rw [if_neg (by omega), if_pos ⟨h1, h2⟩]

lemma axialSlice_length (v : Volume) (z : Nat) : (axialSlice v z).length = v.height := by
  simp [axialSlice]

lemma axialSlice_rows (v : Volume) (z : Nat) :
    ∀ r ∈ axialSlice v z, r.length = v.width := by
  intro r hr
  simp only [axialSlice, List.mem_map] at hr
  obtain ⟨y, _, rfl⟩ := hr
  simp

lemma coronalSlice_length (v : Volume) (y : Nat) : (coronalSlice v y).length = v.depth := by
  simp [coronalSlice]

lemma coronalSlice_rows (v : Volume) (y : Nat) :
    ∀ r ∈ coronalSlice v y, r.length = v.width := by
  intro r hr
  simp only [coronalSlice, List.mem_map] at hr
  obtain ⟨z, _, rfl⟩ := hr
  simp

lemma sagittalSlice_length (v : Volume) (x : Nat) : (sagittalSlice v x).length = v.depth := by
  simp [sagittalSlice]

lemma sagittalSlice_rows (v : Volume) (x : Nat) :
    ∀ r ∈ sagittalSlice v x, r.length = v.height := by
  intro r hr
  simp only [sagittalSlice, List.mem_map] at hr
  obtain ⟨z, _, rfl⟩ := hr
  simp

lemma pad2d_length (m : List (List Nat)) (r c : Nat) (h : m.length ≤ r) :
    (pad2d m r c).length = r := by
  simp [pad2d]
  omega

lemma pad2d_rows (m : List (List Nat)) (r c : Nat) (h : ∀ row ∈ m, row.length ≤ c) :
    ∀ row ∈ pad2d m r c, row.length = c := by
  intro row hrow
  rcases List.mem_append.1 hrow with hm | hrep
  · obtain ⟨row0, h0, rfl⟩ := List.mem_map.1 hm
    have := h row0 h0
    simp [padRow]
    omega
  · rw [List.eq_of_mem_replicate hrep]
    simp

lemma hstack2_rows (p q : Nat) : ∀ (a b : List (List Nat)),
    (∀ r ∈ a, r.length = p) → (∀ r ∈ b, r.length = q) →
    ∀ r ∈ hstack2 a b, r.length = p + q := by
  intro a
  induction a with
  | nil => intro b _ _ r hr; simp [hstack2] at hr
  | cons x xs ih =>
    intro b ha hb r hr
    cases b with
    | nil => simp [hstack2] at hr
    | cons y ys =>
      simp only [hstack2, List.zipWith] at hr
      rcases List.mem_cons.1 hr with rfl | hr2
      · rw [List.length_append, ha x (by simp), hb y (by simp)]
      · exact ih ys (fun r h => ha r (by simp [h])) (fun r h => hb r (by simp [h])) r hr2

lemma depth_le_maxDim (v : Volume) : v.depth ≤ maxDim v := by
  unfold maxDim; omega

lemma height_le_maxDim (v : Volume) : v.height ≤ maxDim v := by
  unfold maxDim; omega

lemma width_le_maxDim (v : Volume) : v.width ≤ maxDim v := by
  unfold maxDim; omega

lemma composeFrame_shape (v : Volume) (xy yz xz : List (List Nat))
    (h1 : xy.length ≤ maxDim v) (h1r : ∀ r ∈ xy, r.length ≤ maxDim v)
    (h2 : yz.length ≤ maxDim v) (h2r : ∀ r ∈ yz, r.length ≤ maxDim v)
    (h3 : xz.length ≤ maxDim v) (h3r : ∀ r ∈ xz, r.length ≤ maxDim v) :
    (composeFrame v xy yz xz).length = maxDim v ∧
    ∀ row ∈ composeFrame v xy yz xz, row.length = 3 * maxDim v ∧
      ∀ px ∈ row, px.length = 3 := by
  have l1 := pad2d_length xy (maxDim v) (maxDim v) h1
  have l2 := pad2d_length yz (maxDim v) (maxDim v) h2
  have l3 := pad2d_length xz (maxDim v) (maxDim v) h3
  have r1 := pad2d_rows xy (maxDim v) (maxDim v) h1r
  have r2 := pad2d_rows yz (maxDim v) (maxDim v) h2r
  have r3 := pad2d_rows xz (maxDim v) (maxDim v) h3r
  have hrows := hstack2_rows (maxDim v + maxDim v) (maxDim v) _ _
    (hstack2_rows (maxDim v) (maxDim v) _ _ r1 r2) r3
  constructor
  · simp [composeFrame, hstack3, hstack2, l1, l2, l3]
  · intro row hrow
    simp only [composeFrame, List.mem_map] at hrow
    obtain ⟨row0, h0, rfl⟩ := hrow
    constructor
    · rw [List.length_map, hrows row0 h0]
      omega
    · intro px hpx
      simp only [List.mem_map] at hpx
      obtain ⟨p, _, rfl⟩ := hpx
      rfl

lemma frameAt_eq (v : Volume) (i : Nat)
    (hz : i < v.depth) (hy : i < v.height) (hx : i < v.width) :
    frameAt v i =
      some (composeFrame v (axialSlice v i) (coronalSlice v i) (sagittalSlice v i)) := by
  unfold frameAt axialStrict coronalStrict sagittalStrict
  rw [npIndex_of_lt _ _ hz, npIndex_of_lt _ _ hy, npIndex_of_lt _ _ hx]
  rfl

lemma frameSeq_map (v : Volume) (g : Nat → Frame) : ∀ (l : List Nat),
    (∀ i ∈ l, frameAt v i = some (g i)) → frameSeq v l = some (l.map g) := by
  intro l
  induction l with
  | nil => intro _; rfl
  | cons i is ih =>
    intro h
    simp only [frameSeq, h i (by simp), ih (fun j hj => h j (by simp [hj])), List.map]

lemma ravelF_get (a : Volume) (i0 i1 i2 : Nat)
    (h0 : i0 < a.depth) (h1 : i1 < a.height) (h2 : i2 < a.width) :
    (ravelF a)[i0 + a.depth * i1 + a.depth * a.height * i2]? = some (a.data i0 i1 i2) := by
  have hd : 0 < a.depth := by omega
  have hh : 0 < a.height := by omega
  have hidx : i0 + a.depth * i1 + a.depth * a.height * i2
      = i0 + a.depth * (i1 + a.height * i2) := by ring
  have hlt : i0 + a.depth * (i1 + a.height * i2) < a.depth * a.height * a.width := by
    calc i0 + a.depth * (i1 + a.height * i2)
        < a.depth * (1 + (i1 + a.height * i2)) := by nlinarith
      _ ≤ a.depth * (a.height * a.width) := by
          apply Nat.mul_le_mul_left
          calc 1 + (i1 + a.height * i2) = (i1 + 1) + a.height * i2 := by ring
            _ ≤ a.height + a.height * i2 := by omega
            _ = a.height * (i2 + 1) := by ring
            _ ≤ a.height * a.width := Nat.mul_le_mul_left _ h2
      _ = a.depth * a.height * a.width := by ring
  have e2 : (i0 + a.depth * (i1 + a.height * i2)) / a.depth = i1 + a.height * i2 := by
    rw [Nat.add_mul_div_left _ _ hd, Nat.div_eq_of_lt h0]
    omega
  have e1 : (i0 + a.depth * (i1 + a.height * i2)) % a.depth = i0 := by
    rw [Nat.add_mul_mod_self_left, Nat.mod_eq_of_lt h0]
  have e3 : (i1 + a.height * i2) % a.height = i1 := by
    rw [Nat.add_mul_mod_self_left, Nat.mod_eq_of_lt h1]
  have e4 : (i0 + a.depth * (i1 + a.height * i2)) / (a.depth * a.height) = i2 := by
    rw [← Nat.div_div_eq_div_mul, e2, Nat.add_mul_div_left _ _ hh, Nat.div_eq_of_lt h1]
    omega
  rw [hidx]
  unfold ravelF
  rw [List.getElem?_map, List.getElem?_range hlt]
  simp [e1, e2, e3, e4]

/-! ## Claims -/

/-- C1 (counterexample): `update_slice` does not clamp.  On a 10×10×10
configuration, `update_slice(-1, 0, 0)` leaves a stored `x_offset` of
`-1`, violating the claimed `0 ≤ offset` invariant. -/
theorem update_slice_no_clamp_cex :
    ((FIBTomo.init (10, 10, 10)).update_slice (-1) 0 0).x_offset < 0 := by
  decide

/-- C1 (amended): `update_slice` stores the three inputs verbatim — it
never fails and never clamps — and touches nothing else; bounds are
enforced only where offsets are consumed (`np.clip` at the extraction
sites). -/
theorem update_slice_stores_verbatim (t : FIBTomo) (x y z : Int) :
    (t.update_slice x y z).x_offset = x ∧
    (t.update_slice x y z).y_offset = y ∧
    (t.update_slice x y z).z_offset = z ∧
    (t.update_slice x y z).dims = t.dims ∧
    (t.update_slice x y z).volume = t.volume ∧
    (t.update_slice x y z).loaded = t.loaded :=
  ⟨rfl, rfl, rfl, rfl, rfl, rfl⟩

/-- C2: the oriented buffer built by `create_vtk_volume` is a lossless
permutation of the volume: it has `depth * height * width` elements, and
the voxel `volume[z][y][x]` sits at linear position
`x + width*y + width*height*z` (axis order `(x, y, z)`, x fastest). -/
theorem create_vtk_volume_lossless (v : Volume) :
    (create_vtk_volume v).buffer.length = v.depth * v.height * v.width ∧
    ∀ z y x, z < v.depth → y < v.height → x < v.width →
      (create_vtk_volume v).buffer[x + v.width * y + v.width * v.height * z]? =
        some (v.data z y x) := by
  constructor
  · show (ravelF (transpose210 v)).length = _
    unfold ravelF
    simp [transpose210]
    ring
  · intro z y x hz hy hx
    exact ravelF_get (transpose210 v) x y z hx hy hz

/-- C2 (witness): the lossless-permutation theorem evaluated on the
concrete 2×2×2 volume whose voxel `[z][y][x]` equals `4z + 2y + x`. -/
theorem create_vtk_volume_lossless_witness :
    (create_vtk_volume gradVolume222).buffer.length = 2 * 2 * 2 ∧
    (create_vtk_volume gradVolume222).buffer[1 + 2 * 0 + 2 * 2 * 1]? =
      some (gradVolume222.data 1 0 1) :=
  ⟨(create_vtk_volume_lossless gradVolume222).1,
   (create_vtk_volume_lossless gradVolume222).2 1 0 1 (by decide) (by decide) (by decide)⟩

/-- C3 (code evaluated at the failing input): the normalization in
`animate_slices` has no guard on `np.max(combined)`.  For the all-zero
1×1×1 volume the combined frame is `[[0, 0, 0]]` with maximum `0`, so
every sample is `0 / 0` — NaN, whose `uint8` cast is undefined (`none`
in this model) — not the all-zero frame the claim requires. -/
theorem animate_all_zero_undefined :
    animate_slices (zeroVolume 1 1 1) =
      some [[[[none, none, none], [none, none, none], [none, none, none]]]] := by
  rfl

/-- C4 (counterexample): on a 2×1×1 volume the claim promises 2 frames,
but iteration `i = 1` evaluates `volume[:, 1, :]` with `height = 1`, an
`IndexError`, so the compositor aborts and produces no frame sequence. -/
theorem animate_depth_gt_height_cex :
    animate_slices (zeroVolume 2 1 1) = none ∧ (zeroVolume 2 1 1).depth = 2 :=
  ⟨rfl, rfl⟩

/-- C4 (amended): provided `depth ≤ height` and `depth ≤ width` (so that
the coronal and sagittal extractions at each depth index are in bounds),
`animate_slices` produces exactly `depth` frames, each of shape
`(max_dim, max_dim*3, 3)` with `max_dim = max(depth, height, width)`;
with `depth` larger than `height` or `width` the loop faults instead. -/
theorem animate_slices_shape (v : Volume) (hh : v.depth ≤ v.height) (hw : v.depth ≤ v.width) :
    ∃ frames, animate_slices v = some frames ∧ frames.length = v.depth ∧
      ∀ f ∈ frames, f.length = maxDim v ∧
        ∀ row ∈ f, row.length = 3 * maxDim v ∧ ∀ px ∈ row, px.length = 3 := by
  refine ⟨(List.range v.depth).map
    (fun i => composeFrame v (axialSlice v i) (coronalSlice v i) (sagittalSlice v i)), ?_, ?_, ?_⟩
  · unfold animate_slices
    apply frameSeq_map
    intro i hi
    have hi2 := List.mem_range.1 hi
    exact frameAt_eq v i hi2 (by omega) (by omega)
  · simp
  · intro f hf
    obtain ⟨i, _, rfl⟩ := List.mem_map.1 hf
    apply composeFrame_shape
    · rw [axialSlice_length]; exact height_le_maxDim v
    · intro r hr; rw [axialSlice_rows v i r hr]; exact width_le_maxDim v
    · rw [coronalSlice_length]; exact depth_le_maxDim v
    · intro r hr; rw [coronalSlice_rows v i r hr]; exact width_le_maxDim v
    · rw [sagittalSlice_length]; exact depth_le_maxDim v
    · intro r hr; rw [sagittalSlice_rows v i r hr]; exact height_le_maxDim v

/-- C4 (witness): the shape theorem evaluated on a concrete 2×3×3 volume. -/
theorem animate_slices_shape_witness :
    ∃ frames, animate_slices (zeroVolume 2 3 3) = some frames ∧
      frames.length = (zeroVolume 2 3 3).depth ∧
      ∀ f ∈ frames, f.length = maxDim (zeroVolume 2 3 3) ∧
        ∀ row ∈ f, row.length = 3 * maxDim (zeroVolume 2 3 3) ∧ ∀ px ∈ row, px.length = 3 :=
  animate_slices_shape (zeroVolume 2 3 3) (by decide) (by decide)

/-- C5 (counterexample): `np.linspace(0, 255, w, dtype=np.uint8)`
truncates when casting, so for `width = 3` the sample at `x = 1` is
`⌊127.5⌋ = 127`, while the claimed `round(255 * x / (width-1))` is `128`. -/
theorem synthetic_trunc_not_round_cex :
    (synthetic 1 1 3).data 0 0 1 = 127 ∧ specRoundGradient 3 1 = 128 := by
  constructor
  · decide
  · unfold specRoundGradient
    norm_num [round_eq]

/-- C5 (amended): the synthetic voxel at `[z][y][x]` is the truncation
`⌊255 * x / (width - 1)⌋` (not the rounding) for every `width ≥ 2`; the
8×4×4 scenario holds as stated since there the gradient values are exact:
`axial(0)` is the 4×4 array of rows `[0, 85, 170, 255]` and `coronal(0)`
is the 8×4 array of the same rows. -/
theorem synthetic_gradient_values :
    (∀ d h w z y x, 2 ≤ w → (synthetic d h w).data z y x = 255 * x / (w - 1)) ∧
    axialSlice (synthetic 8 4 4) 0 =
      [[0, 85, 170, 255], [0, 85, 170, 255], [0, 85, 170, 255], [0, 85, 170, 255]] ∧
    coronalSlice (synthetic 8 4 4) 0 = List.replicate 8 [0, 85, 170, 255] := by
  refine ⟨?_, by decide, by decide⟩
  intro d h w z y x hw
  show linspaceU8 w x = _
  unfold linspaceU8
  rw [if_neg (by omega)]

/-- C5 (witness): the gradient formula evaluated at `width = 4, x = 2`
on the 8×4×4 synthetic volume. -/
theorem synthetic_gradient_values_witness :
    2 ≤ 4 ∧ (synthetic 8 4 4).data 0 0 2 = 255 * 2 / (4 - 1) :=
  ⟨by decide, synthetic_gradient_values.1 8 4 4 0 0 2 (by decide)⟩

/-- C6 (counterexample): `load_image` recenters from the configured
`self.dims`, not from the shape of the volume actually loaded.  Loading a
10×10×10 stack into an instance constructed with `dims = (100,100,100)`
leaves all offsets at `50`, not the claimed `5`. -/
theorem load_image_dims_mismatch_cex :
    mismatchTomo.x_offset = 50 ∧ mismatchTomo.y_offset = 50 ∧ mismatchTomo.z_offset = 50 ∧
    mismatchTomo.volume.map Volume.depth = some 10 ∧
    mismatchTomo.volume.map Volume.height = some 10 ∧
    mismatchTomo.volume.map Volume.width = some 10 :=
  ⟨rfl, rfl, rfl, rfl, rfl, rfl⟩

/-- C6 (amended): every load (external or synthetic) resets the offsets
to `dim // 2` of the instance's configured `dims` triple — which equals
the loaded volume's shape only when the two agree, as for synthetic
loads; in particular the 10×10×10 scenario holds for an instance
constructed with `dims = (10, 10, 10)`. -/
theorem load_image_centers_on_configured_dims :
    (∀ (t : FIBTomo) (buf : Option Volume),
      (t.load_image buf).x_offset = ((t.dims.2.2 / 2 : Nat) : Int) ∧
      (t.load_image buf).y_offset = ((t.dims.2.1 / 2 : Nat) : Int) ∧
      (t.load_image buf).z_offset = ((t.dims.1 / 2 : Nat) : Int) ∧
      (t.load_image buf).loaded = true) ∧
    ((FIBTomo.init (10, 10, 10)).load_image (some (zeroVolume 10 10 10))).x_offset = 5 ∧
    ((FIBTomo.init (10, 10, 10)).load_image (some (zeroVolume 10 10 10))).y_offset = 5 ∧
    ((FIBTomo.init (10, 10, 10)).load_image (some (zeroVolume 10 10 10))).z_offset = 5 :=
  ⟨fun _ _ => ⟨rfl, rfl, rfl, rfl⟩, rfl, rfl, rfl⟩

/-- C7 (counterexample): the strict extraction does not fail on every
negative index: NumPy wraps indices in `[-dim, -1]`, so a coronal index
of `-1` against `height = 3` returns the slice at row `2` instead of an
`IndexOutOfRange` failure. -/
theorem negative_index_wraps_cex :
    coronalStrict (zeroVolume 2 3 4) (-1) = some (coronalSlice (zeroVolume 2 3 4) 2) := by
  rfl

/-- C7 (amended): each strict slice primitive fails with `IndexError`
exactly when the index lies outside `[-dim, dim)` for its axis; an index
in `[0, dim)` returns the correctly shaped slice (axial `(height, width)`,
coronal `(depth, width)`, sagittal `(depth, height)`), and an index in
`[-dim, 0)` wraps to `dim + i` instead of failing. -/
theorem slice_strict_bounds (v : Volume) (i : Int) :
    (((v.depth : Int) ≤ i ∨ i < -(v.depth : Int)) → axialStrict v i = none) ∧
    (((v.height : Int) ≤ i ∨ i < -(v.height : Int)) → coronalStrict v i = none) ∧
    (((v.width : Int) ≤ i ∨ i < -(v.width : Int)) → sagittalStrict v i = none) ∧
    (∀ z : Nat, z < v.depth → axialStrict v (z : Int) = some (axialSlice v z) ∧
      (axialSlice v z).length = v.height ∧ ∀ r ∈ axialSlice v z, r.length = v.width) ∧
    (∀ y : Nat, y < v.height → coronalStrict v (y : Int) = some (coronalSlice v y) ∧
      (coronalSlice v y).length = v.depth ∧ ∀ r ∈ coronalSlice v y, r.length = v.width) ∧
    (∀ x : Nat, x < v.width → sagittalStrict v (x : Int) = some (sagittalSlice v x) ∧
      (sagittalSlice v x).length = v.depth ∧ ∀ r ∈ sagittalSlice v x, r.length = v.height) ∧
    (-(v.depth : Int) ≤ i → i < 0 →
      axialStrict v i = some (axialSlice v ((v.depth : Int) + i).toNat)) ∧
    (-(v.height : Int) ≤ i → i < 0 →
      coronalStrict v i = some (coronalSlice v ((v.height : Int) + i).toNat)) ∧
    (-(v.width : Int) ≤ i → i < 0 →
      sagittalStrict v i = some (sagittalSlice v ((v.width : Int) + i).toNat)) := by
  refine ⟨?_, ?_, ?_, ?_, ?_, ?_, ?_, ?_, ?_⟩
  · intro h; unfold axialStrict; rw [npIndex_none _ _ h]; rfl
  · intro h; unfold coronalStrict; rw [npIndex_none _ _ h]; rfl
  · intro h; unfold sagittalStrict; rw [npIndex_none _ _ h]; rfl
  · intro z hz
    refine ⟨?_, axialSlice_length v z, axialSlice_rows v z⟩
    unfold axialStrict; rw [npIndex_of_lt _ _ hz]; rfl
  · intro y hy
    refine ⟨?_, coronalSlice_length v y, coronalSlice_rows v y⟩
    unfold coronalStrict; rw [npIndex_of_lt _ _ hy]; rfl
  · intro x hx
    refine ⟨?_, sagittalSlice_length v x, sagittalSlice_rows v x⟩
    unfold sagittalStrict; rw [npIndex_of_lt _ _ hx]; rfl
  · intro h1 h2; unfold axialStrict; rw [npIndex_wrap _ _ h1 h2]; rfl
  · intro h1 h2; unfold coronalStrict; rw [npIndex_wrap _ _ h1 h2]; rfl
  · intro h1 h2; unfold sagittalStrict; rw [npIndex_wrap _ _ h1 h2]; rfl

/-- C7 (witness): the bounds theorem evaluated on a concrete 2×3×4
volume: axial index 5 raises, coronal index 1 extracts a `(2, 4)` slice,
axial index -2 wraps to 0. -/
theorem slice_strict_bounds_witness :
    axialStrict (zeroVolume 2 3 4) 5 = none ∧
    coronalStrict (zeroVolume 2 3 4) ((1 : Nat) : Int) =
      some (coronalSlice (zeroVolume 2 3 4) 1) ∧
    (coronalSlice (zeroVolume 2 3 4) 1).length = (zeroVolume 2 3 4).depth ∧
    axialStrict (zeroVolume 2 3 4) (-2) =
      some (axialSlice (zeroVolume 2 3 4) (((zeroVolume 2 3 4).depth : Int) + (-2)).toNat) :=
  ⟨(slice_strict_bounds (zeroVolume 2 3 4) 5).1 (Or.inl (by decide)),
   ((slice_strict_bounds (zeroVolume 2 3 4) 1).2.2.2.2.1 1 (by decide)).1,
   ((slice_strict_bounds (zeroVolume 2 3 4) 1).2.2.2.2.1 1 (by decide)).2.1,
   (slice_strict_bounds (zeroVolume 2 3 4) (-2)).2.2.2.2.2.2.1 (by decide) (by decide)⟩

/-- C8 (counterexample): `VTK3DReconstruction.create_vtk_volume` mutates
the stored volume: it rebinds `self.image_stack` to the `(2,1,0)`
transpose, so after one call on a 2×1×1 stack the stored first extent is
1, no longer the loaded 2. -/
theorem create_vtk_volume_mutates_stack_cex :
    (VTK3DReconstruction.create_vtk_volume ⟨zeroVolume 2 1 1⟩).1.image_stack.depth = 1 ∧
    (zeroVolume 2 1 1).depth = 2 :=
  ⟨rfl, rfl⟩

/-- C8 (amended): `FIBTomo.create_vtk_volume` never changes the object
state (its transpose is a local), and slice extraction and the scale-bar
computation are pure reads; but `VTK3DReconstruction.create_vtk_volume`
replaces the stored image stack with its transpose on every call, so in
that class the oriented buffer IS produced by mutating the stored volume. -/
theorem oriented_buffer_state_effects :
    (∀ (t : FIBTomo) (stack : Option Volume), (t.create_vtk_volume_st stack).1 = t) ∧
    (∀ s : VTK3DReconstruction,
      (VTK3DReconstruction.create_vtk_volume s).1.image_stack = transpose210 s.image_stack) := by
  constructor
  · intro t stack
    cases stack with
    | some s => rfl
    | none =>
      unfold FIBTomo.create_vtk_volume_st
      rcases h : t.volume with _ | v <;> cases h2 : t.loaded <;> simp [h, h2]
  · intro s
    rfl

/-- C9: the scale-bar computation divides a projected point by its
homogeneous coordinate exactly when `w ≠ 0`; with the identity projection
`(x, y, 0) ↦ (x, y, 0, 1)`, `pixel_length = 100`, margin `20` and a
400-wide viewport, the endpoints are `(80, 20, 0)` and `(180, 20, 0)` and
the computed world distance is `100.0` (its square is `100 * 100`), whose
label is `"100.00 mm"`. -/
theorem scale_bar_computation :
    (∀ p : ℚ × ℚ × ℚ × ℚ, p.2.2.2 ≠ 0 →
      dehomog p = (p.1 / p.2.2.2, p.2.1 / p.2.2.2, p.2.2.1 / p.2.2.2)) ∧
    (∀ (W m L : ℚ) (proj : ℚ → ℚ → ℚ × ℚ × ℚ × ℚ),
      update_scale_bar W m L proj =
        ⟨dehomog (proj (0.5 * W - m - L) m), dehomog (proj (0.5 * W - m) m),
         dist2 (dehomog (proj (0.5 * W - m - L) m)) (dehomog (proj (0.5 * W - m) m))⟩) ∧
    update_scale_bar 400 20 100 (fun x y => (x, y, 0, 1)) =
      ⟨(80, 20, 0), (180, 20, 0), 100 * 100⟩ ∧
    formatMM 100 = "100.00 mm" := by
  refine ⟨?_, fun W m L proj => rfl, ?_, ?_⟩
  · intro p hp
    unfold dehomog
    rw [if_pos hp]
  · unfold update_scale_bar dehomog dist2
    norm_num
  · have h : Int.floor ((100 : ℚ) * 100 + 1 / 2) = 10000 := by norm_num
    unfold formatMM
    rw [h]
    decide

/-- C9 (witness): the dehomogenization clause evaluated at the concrete
projected point `(1, 2, 3, 2)` with `w = 2 ≠ 0`. -/
theorem scale_bar_computation_witness :
    ((2 : ℚ) ≠ 0) ∧
    dehomog (1, 2, 3, 2) = ((1 : ℚ) / 2, (2 : ℚ) / 2, (3 : ℚ) / 2) :=
  ⟨by norm_num, scale_bar_computation.1 (1, 2, 3, 2) (by norm_num)⟩

/-- C10: on any loaded volume of positive depth, `get_vtk_image` never
raises an index error whatever the stored `z_offset` is: it clips the
offset into `[0, depth - 1]` and returns the axial slice at the clipped
index.  The method writes no attribute (it is a pure function of the
state here), so the stored `z_offset` itself is unchanged. -/
theorem get_vtk_image_clamps (t : FIBTomo) (v : Volume)
    (hv : t.volume = some v) (hl : t.loaded = true) (hd : 0 < v.depth) :
    t.get_vtk_image =
      some (axialSlice v (clipInt t.z_offset 0 ((v.depth : Int) - 1)).toNat) ∧
    0 ≤ clipInt t.z_offset 0 ((v.depth : Int) - 1) ∧
    clipInt t.z_offset 0 ((v.depth : Int) - 1) < (v.depth : Int) := by
  have h0 : 0 ≤ clipInt t.z_offset 0 ((v.depth : Int) - 1) := by
    apply le_min (le_max_right _ _)
    omega
  have h1 : clipInt t.z_offset 0 ((v.depth : Int) - 1) < (v.depth : Int) := by
    apply lt_of_le_of_lt (min_le_right _ _)
    omega
  refine ⟨?_, h0, h1⟩
  have he : t.get_vtk_image = axialStrict v (clipInt t.z_offset 0 ((v.depth : Int) - 1)) := by
    unfold FIBTomo.get_vtk_image
    rw [hv, hl]
  rw [he]
  unfold axialStrict
  rw [npIndex_of_nonneg_lt _ _ h0 h1]
  rfl

/-- C10 (witness): the clamping theorem evaluated on a loaded 2×2×2
volume whose stored `z_offset` is `-5`: the extraction succeeds at the
clipped index `0`. -/
theorem get_vtk_image_clamps_witness :
    tomoNeg.get_vtk_image =
      some (axialSlice (zeroVolume 2 2 2)
        (clipInt tomoNeg.z_offset 0 (((zeroVolume 2 2 2).depth : Int) - 1)).toNat) ∧
    0 ≤ clipInt tomoNeg.z_offset 0 (((zeroVolume 2 2 2).depth : Int) - 1) ∧
    clipInt tomoNeg.z_offset 0 (((zeroVolume 2 2 2).depth : Int) - 1) <
      ((zeroVolume 2 2 2).depth : Int) :=
  get_vtk_image_clamps tomoNeg (zeroVolume 2 2 2) rfl rfl (by decide)
